import Mathlib

/-!
Shallow embedding of the task lifecycle core of
`TaskManagementSystem.cpp`: the state variants (`CreateState`,
`InProgressState`, `CompletedState`, `CancelledState`), the context
(`TaskContext` holding the current state and the observer list), the
domain entity (`Task`), and the builder (`TaskManager`).

Side effects (console prints and observer `Update` calls) are made
explicit as event traces: every operation that has effects returns,
next to its result, the list of events it emits, in emission order.
Observers (C++ `shared_ptr<TaskObserver>`) are modelled as references:
`some n` is a live sink identified by `n`, `none` is a null
`shared_ptr`, which the source accepts without a guard.
-/

namespace TMS

/-- Priority enum of the source (`enum TaskPriority { HIGH, MEDIUM, LOW }`). -/
inductive TaskPriority where
  | HIGH
  | MEDIUM
  | LOW
deriving DecidableEq, Repr

/-- The four concrete `TaskState` subclasses, as a closed sum. -/
inductive TaskState where
  | Created
  | InProgress
  | Completed
  | Cancelled
deriving DecidableEq, Repr

/-- The `message` string built in the `handle` member of each
concrete state (its entry-action text). -/
def TaskState.handleMessage : TaskState → String
  | .Created => "Task has been created..."
  | .InProgress => "Task has been changed to InProgress..."
  | .Completed => "Task has been completed..."
  | .Cancelled => "Task has been Cancelled..."

/-- The string returned by `getCurrentState` of each concrete state
(its display label). -/
def TaskState.stateLabel : TaskState → String
  | .Created => "Created"
  | .InProgress => "InProgress"
  | .Completed => "Completed"
  | .Cancelled => "Cancelled"

/-- A reference to a `shared_ptr<TaskObserver>`: `none` is the null
pointer, `some n` the sink with identity `n`. -/
abbrev ObserverRef := Option Nat

/-- One observable side effect of the core: a `cout` line, or an
`observer->Update(message)` call on one sink. -/
inductive Event where
  | console : String → Event
  | deliver : ObserverRef → String → Event
deriving DecidableEq, Repr

/-- The `Update` calls of a trace, as (sink, message) pairs in
emission order; `console` output is dropped. -/
def deliveries (tr : List Event) : List (ObserverRef × String) :=
  tr.filterMap fun e =>
    match e with
    | .deliver o m => some (o, m)
    | .console _ => none

/-- The `TaskContext` class: `currentTaskState` is the owned
`unique_ptr<TaskState>` (null = `none`, which arises after a move),
`taskObservers` the `vector<shared_ptr<TaskObserver>>`. -/
structure TaskContext where
  currentTaskState : Option TaskState
  taskObservers : List ObserverRef
deriving DecidableEq, Repr

/-- `TaskContext::setState`: replaces the current state, no checks. -/
def TaskContext.setState (c : TaskContext) (newState : TaskState) : TaskContext :=
  { c with currentTaskState := some newState }

/-- `TaskContext::addTaskObserver`: `push_back` on the vector, no
null check, no deduplication. -/
def TaskContext.addTaskObserver (c : TaskContext) (observer : ObserverRef) : TaskContext :=
  { c with taskObservers := c.taskObservers ++ [observer] }

/-- `TaskContext::notify`: calls `Update(message)` on every stored
sink, in vector order. The returned trace lists those calls. -/
def TaskContext.notify (c : TaskContext) (message : String) : List Event :=
  c.taskObservers.map fun o => .deliver o message

/-- `TaskContext::executeState`: if a state is set, run its
`handle(*this)`, which prints the entry message and calls
`notify(message)`; otherwise do nothing. -/
def TaskContext.executeState (c : TaskContext) : List Event :=
  match c.currentTaskState with
  | some s => .console s.handleMessage :: c.notify s.handleMessage
  | none => []

/-- `TaskContext::getCurrentState`: label of the current state, or
the sentinel when no state is set. -/
def TaskContext.getCurrentState (c : TaskContext) : String :=
  match c.currentTaskState with
  | some s => s.stateLabel
  | none => "Invalid State"

/-- The `Task` class fields. `time_t` values are modelled as `Int`
seconds since the Unix epoch. -/
structure Task where
  Id : Int
  taskTitle : String
  taskDescription : String
  startDate : Int
  endDate : Int
  taskPriority : TaskPriority
  taskContext : TaskContext
deriving DecidableEq, Repr

/-- The private `Task(int, string, TaskPriority)` constructor: fields
initialized (description empty, `startDate = time(nullptr)` passed in
as `now`, `endDate = startDate + 2*24*60*60`), the context built with
a fresh `CreateState` and an empty observer vector, then
`taskContext.executeState()` runs in the constructor body. Returns
the task together with the event trace of the constructor body. -/
def Task.construct (id : Int) (title : String) (priority : TaskPriority)
    (now : Int) : Task × List Event :=
  let t : Task :=
    { Id := id
      taskTitle := title
      taskDescription := ""
      startDate := now
      endDate := now + 2 * 24 * 60 * 60
      taskPriority := priority
      taskContext := { currentTaskState := some .Created, taskObservers := [] } }
  (t, t.taskContext.executeState)

/-- `Task::addTaskObserver`: delegates to the context. -/
def Task.addTaskObserver (t : Task) (observer : ObserverRef) : Task :=
  { t with taskContext := t.taskContext.addTaskObserver observer }

/-- `Task::changeState`: `setState` then `executeState` on the owned
context. Returns the updated task and the emitted trace. -/
def Task.changeState (t : Task) (newState : TaskState) : Task × List Event :=
  let c := t.taskContext.setState newState
  ({ t with taskContext := c }, c.executeState)

/-- `Task::getCurrentTaskPriorityInString`. The trailing `else`
branch of the source returns "Invalid", unreachable for the three
enum values. -/
def Task.getCurrentTaskPriorityInString (t : Task) : String :=
  match t.taskPriority with
  | .HIGH => "High"
  | .MEDIUM => "Medium"
  | .LOW => "Low"

/-- Left-pad a number below 100 to two digits, as `strftime` field
specifiers `%m` and `%d` render month and day. -/
def pad2 (n : Nat) : String :=
  if n < 10 then "0" ++ toString n else toString n

/-- Civil date (year, month, day) of a day count relative to
1970-01-01, the standard days-to-civil computation performed by the
C library behind `localtime` and `strftime` (modelled at UTC offset
zero; date/time formatting is an external collaborator of the core).
Divisions mirror C++ truncating integer division. -/
def civilFromDays (z0 : Int) : Int × Nat × Nat :=
  let z := z0 + 719468
  let era := Int.tdiv (if 0 ≤ z then z else z - 146096) 146097
  let doe := (z - era * 146097).toNat
  let yoe := (doe - doe / 1460 + doe / 36524 - doe / 146096) / 365
  let y := (yoe : Int) + era * 400
  let doy := doe - (365 * yoe + yoe / 4 - yoe / 100)
  let mp := (5 * doy + 2) / 153
  let d := doy - (153 * mp + 2) / 5 + 1
  let m := if mp < 10 then mp + 3 else mp + 3 - 12
  (if m ≤ 2 then y + 1 else y, m, d)

/-- Rendering of a `time_t` by `strftime` with format `"%Y-%m-%d"`:
year, dash, two-digit month, dash, two-digit day. -/
def formatDate (t : Int) : String :=
  let c := civilFromDays (Int.fdiv t 86400)
  toString c.1 ++ "-" ++ pad2 c.2.1 ++ "-" ++ pad2 c.2.2

/-- The six `cout` lines of `Task::print`, in print order. -/
def Task.printLines (t : Task) : List String :=
  [ "Task Details"
  , "Id: " ++ toString t.Id ++ ", Priority: " ++ t.getCurrentTaskPriorityInString
  , "Title: " ++ t.taskTitle
  , "Description: " ++ t.taskDescription
  , "Start Date: " ++ formatDate t.startDate ++ ", End Date: " ++ formatDate t.endDate
  , "Task Status: " ++ t.taskContext.getCurrentState ]

/-- The public operations callable on a built `Task`. -/
inductive Op where
  | setTitle : String → Op
  | setDescription : String → Op
  | setStartDate : Int → Op
  | setEndDate : Int → Op
  | setTaskPriority : TaskPriority → Op
  | addTaskObserver : ObserverRef → Op
  | changeState : TaskState → Op
  | print : Op

/-- Small-step semantics of the `Task` public interface: each
operation yields the updated task and its event trace. Setters are
plain field replacements; `print` only reads and emits its lines. -/
def Task.applyOp (t : Task) : Op → Task × List Event
  | .setTitle s => ({ t with taskTitle := s }, [])
  | .setDescription s => ({ t with taskDescription := s }, [])
  | .setStartDate d => ({ t with startDate := d }, [])
  | .setEndDate d => ({ t with endDate := d }, [])
  | .setTaskPriority p => ({ t with taskPriority := p }, [])
  | .addTaskObserver o => (t.addTaskObserver o, [])
  | .changeState s => t.changeState s
  | .print => (t, t.printLines.map Event.console)

/-- A moved-from `Task`, as produced by `return std::move(task)`:
the implicit memberwise move leaves the `unique_ptr<TaskState>` null
and the observer vector empty; scalar fields are copied. Moved-from
strings are valid but unspecified in C++; the model leaves them in
place and no theorem relies on them. -/
def Task.movedFrom (t : Task) : Task :=
  { t with taskContext := { currentTaskState := none, taskObservers := [] } }

/-- The `TaskManager` builder: holds the in-progress `Task` member. -/
structure TaskManager where
  task : Task
deriving DecidableEq, Repr

/-- The `TaskManager(int, string, TaskPriority)` constructor: builds
the member task (running its constructor, hence its trace). -/
def TaskManager.construct (id : Int) (title : String) (priority : TaskPriority)
    (now : Int) : TaskManager × List Event :=
  let p := Task.construct id title priority now
  ({ task := p.1 }, p.2)

/-- `TaskManager::setDescription`, chaining setter on the held task. -/
def TaskManager.setDescription (m : TaskManager) (description : String) : TaskManager :=
  { m with task := { m.task with taskDescription := description } }

/-- `TaskManager::setPriority`. -/
def TaskManager.setPriority (m : TaskManager) (taskPriority : TaskPriority) : TaskManager :=
  { m with task := { m.task with taskPriority := taskPriority } }

/-- `TaskManager::setStartDate`. -/
def TaskManager.setStartDate (m : TaskManager) (startDate : Int) : TaskManager :=
  { m with task := { m.task with startDate := startDate } }

/-- `TaskManager::setEndDate`. -/
def TaskManager.setEndDate (m : TaskManager) (endDate : Int) : TaskManager :=
  { m with task := { m.task with endDate := endDate } }

/-- `TaskManager::addTaskObserver`. -/
def TaskManager.addTaskObserver (m : TaskManager) (observer : ObserverRef) : TaskManager :=
  { m with task := m.task.addTaskObserver observer }

/-- `TaskManager::build`: `return std::move(task)` — the held task
is returned by value and the member is left moved-from. -/
def TaskManager.build (m : TaskManager) : Task × TaskManager :=
  (m.task, { task := m.task.movedFrom })

/-- Substring containment: `sub` occurs contiguously in `s`. -/
def containsStr (s sub : String) : Prop :=
  ∃ a b, s = a ++ (sub ++ b)

/-- A console event contributes nothing to the delivery list. -/
theorem deliveries_console_cons (msg : String) (tr : List Event) :
    deliveries (.console msg :: tr) = deliveries tr := by
  simp [deliveries]

/-- The deliveries of a `notify` broadcast: one `Update` per stored
sink, in vector order, all with the broadcast message. -/
theorem deliveries_notify (c : TaskContext) (msg : String) :
    deliveries (c.notify msg) = c.taskObservers.map fun o => (o, msg) := by
  unfold deliveries TaskContext.notify
  induction c.taskObservers with
  | nil => rfl
  | cons o os ih => simp [List.filterMap_cons] at ih ⊢; exact ih

/-- Folding a list of registrations through `Task::addTaskObserver`
appends them, in call order, to the observer vector. -/
theorem foldl_addTaskObserver_observers (t : Task) (obs : List ObserverRef) :
    (obs.foldl Task.addTaskObserver t).taskContext.taskObservers
      = t.taskContext.taskObservers ++ obs := by
  induction obs generalizing t with
  | nil => simp
  | cons o os ih =>
      simp [List.foldl_cons, ih, Task.addTaskObserver,
        TaskContext.addTaskObserver]

/-- C3: for every pair of state variants S and T, `changeState` from
current state S to T succeeds unconditionally — no transition table
is consulted, nothing is rejected, and the current state afterwards
is exactly T. -/
theorem changeState_unconditional (t : Task) (S T : TaskState)
    (h : t.taskContext.currentTaskState = some S) :
    ((t.changeState T).1.taskContext.currentTaskState = some T) := by
  simp [Task.changeState, TaskContext.setState]

/-- Witness for C3: a task in the conventionally terminal state
Completed is moved back to Created. -/
theorem changeState_unconditional_witness :
    ((((Task.construct 1 "t" .HIGH 0).1.changeState .Completed).1.changeState
        .Created).1.taskContext.currentTaskState = some .Created) :=
  changeState_unconditional
    ((Task.construct 1 "t" .HIGH 0).1.changeState .Completed).1
    .Completed .Created rfl

/-- C6: the observer list is append-only — no public operation
removes an observer; every operation leaves the previous list as a
prefix (order and duplicates preserved), and only `addTaskObserver`
extends it, by exactly its argument. -/
theorem observer_list_append_only (t : Task) (op : Op) :
    (t.applyOp op).1.taskContext.taskObservers
      = t.taskContext.taskObservers
        ++ (match op with | .addTaskObserver o => [o] | _ => []) := by
  cases op <;>
    simp [Task.applyOp, Task.addTaskObserver, TaskContext.addTaskObserver,
      Task.changeState, TaskContext.setState]

/-- C7: the state-label query returns the display label of the
current variant (one of the four labels) when a state is set, and
the sentinel "Invalid State" when none is set; it is total. -/
theorem getCurrentState_label_or_sentinel (c : TaskContext) :
    (∀ s, c.currentTaskState = some s →
        c.getCurrentState = s.stateLabel
        ∧ (c.getCurrentState = "Created" ∨ c.getCurrentState = "InProgress"
            ∨ c.getCurrentState = "Completed" ∨ c.getCurrentState = "Cancelled"))
    ∧ (c.currentTaskState = none → c.getCurrentState = "Invalid State") := by
  constructor
  · intro s hs
    constructor
    · simp [TaskContext.getCurrentState, hs]
    · cases s <;> simp [TaskContext.getCurrentState, hs, TaskState.stateLabel]
  · intro hn
    simp [TaskContext.getCurrentState, hn]

/-- Witness for C7: the label query on a context in InProgress, and
on a context with no state set. -/
theorem getCurrentState_label_or_sentinel_witness :
    TaskContext.getCurrentState ⟨some .InProgress, []⟩ = "InProgress"
    ∧ TaskContext.getCurrentState ⟨none, []⟩ = "Invalid State" :=
  ⟨((getCurrentState_label_or_sentinel ⟨some .InProgress, []⟩).1
      .InProgress rfl).1,
    (getCurrentState_label_or_sentinel ⟨none, []⟩).2 rfl⟩

/-- C10: `changeState` modifies only the current state of the owned
machine and emits the broadcast — id, title, description, dates,
priority and the observer list are unchanged. -/
theorem changeState_frame (t : Task) (S : TaskState) :
    ((t.changeState S).1.Id = t.Id)
    ∧ (t.changeState S).1.taskTitle = t.taskTitle
    ∧ (t.changeState S).1.taskDescription = t.taskDescription
    ∧ (t.changeState S).1.startDate = t.startDate
    ∧ (t.changeState S).1.endDate = t.endDate
    ∧ (t.changeState S).1.taskPriority = t.taskPriority
    ∧ (t.changeState S).1.taskContext.taskObservers = t.taskContext.taskObservers
    ∧ (t.changeState S).1.taskContext.currentTaskState = some S
    ∧ (t.changeState S).2
        = .console S.handleMessage
          :: t.taskContext.taskObservers.map (fun o => .deliver o S.handleMessage) := by
  refine ⟨rfl, rfl, rfl, rfl, rfl, rfl, rfl, rfl, ?_⟩
  simp [Task.changeState, TaskContext.setState, TaskContext.executeState,
    TaskContext.notify]

/-- C9 counterexample: registering a null sink is not rejected — the
null pointer is accepted into the registry, and a later broadcast
does invoke it (undefined behavior in the C++ source). -/
theorem addTaskObserver_null_accepted_counterexample :
    (TaskContext.addTaskObserver ⟨some .Created, []⟩ none).taskObservers = [none]
    ∧ TaskContext.notify (TaskContext.addTaskObserver ⟨some .Created, []⟩ none) "m"
        = [.deliver none "m"] :=
  ⟨rfl, rfl⟩

/-- C9 amended: registration of a sink — null included — is
unguarded: `addTaskObserver` appends its argument unconditionally
(no InvalidArgument error exists in the source), and a broadcast
then invokes every stored entry, absent ones included. -/
theorem addTaskObserver_appends_unconditionally
    (c : TaskContext) (o : ObserverRef) (msg : String) :
    (c.addTaskObserver o).taskObservers = c.taskObservers ++ [o]
    ∧ (c.addTaskObserver o).notify msg = c.notify msg ++ [.deliver o msg] := by
  refine ⟨rfl, ?_⟩
  simp [TaskContext.addTaskObserver, TaskContext.notify]

/-- C1: after any sequence of observer registrations on a freshly
built task, a single `changeState X` delivers, to each registration
in registration order, exactly one message equal to the entry-action
text of X (one call per registration, duplicates included). -/
theorem changeState_broadcast_once_per_registration_in_order
    (id : Int) (title : String) (p : TaskPriority) (now : Int)
    (obs : List ObserverRef) (X : TaskState) :
    deliveries ((obs.foldl Task.addTaskObserver
        (Task.construct id title p now).1).changeState X).2
      = obs.map fun o => (o, X.handleMessage) := by
  simp [Task.changeState, TaskContext.setState, TaskContext.executeState,
    deliveries_console_cons, deliveries_notify,
    foldl_addTaskObserver_observers, Task.construct]

/-- C2: construction yields current state Created, with the Created
entry action executed during construction while the observer list is
still empty, so its broadcast delivers to nobody: the constructor
trace is the lone console line and contains no delivery. -/
theorem construct_created_entry_fires_before_registration
    (id : Int) (title : String) (p : TaskPriority) (now : Int) :
    ((Task.construct id title p now).1.taskContext.currentTaskState
        = some .Created)
    ∧ (Task.construct id title p now).1.taskContext.taskObservers = []
    ∧ (Task.construct id title p now).2
        = [.console TaskState.Created.handleMessage]
    ∧ deliveries (Task.construct id title p now).2 = [] :=
  ⟨rfl, rfl, rfl, rfl⟩

/-- Counting a (sink, message) pair among the pairs formed from a
sink list reduces to counting the sink. -/
theorem count_pair_map (l : List ObserverRef) (o : ObserverRef) (msg : String) :
    (l.map fun x => (x, msg)).count (o, msg) = l.count o := by
  induction l with
  | nil => rfl
  | cons a l ih => simp [List.count_cons, beq_iff_eq, Prod.mk.injEq, ih]

/-- C4: calling `changeState S` twice in a row re-executes the entry
action and repeats the broadcast — each call delivers one message
per registration, so each registered observer receives two messages
in total, with no de-duplication of the no-op transition. -/
theorem changeState_twice_notifies_twice (t : Task) (S : TaskState) :
    (deliveries (t.changeState S).2
        = t.taskContext.taskObservers.map fun o => (o, S.handleMessage))
    ∧ (deliveries ((t.changeState S).1.changeState S).2
        = t.taskContext.taskObservers.map fun o => (o, S.handleMessage))
    ∧ ∀ o : ObserverRef,
        (deliveries (t.changeState S).2
          ++ deliveries ((t.changeState S).1.changeState S).2).count
            (o, S.handleMessage)
        = 2 * t.taskContext.taskObservers.count o := by
  refine ⟨?_, ?_, ?_⟩
  · simp [Task.changeState, TaskContext.setState, TaskContext.executeState,
      deliveries_console_cons, deliveries_notify]
  · simp [Task.changeState, TaskContext.setState, TaskContext.executeState,
      deliveries_console_cons, deliveries_notify]
  · intro o
    simp [Task.changeState, TaskContext.setState, TaskContext.executeState,
      deliveries_console_cons, deliveries_notify, List.count_append,
      count_pair_map, two_mul]

/-- C5: `build` returns the held task by value and leaves the
builder consumed: a second `build` on the same builder yields an
emptied task — no registered observers, state query on the sentinel
branch — and in particular not a duplicate of the first task. -/
theorem build_consumes_builder (m : TaskManager) (s : TaskState)
    (h : m.task.taskContext.currentTaskState = some s) :
    ((m.build).1 = m.task)
    ∧ ((m.build).2.build).1.taskContext.taskObservers = []
    ∧ ((m.build).2.build).1.taskContext.getCurrentState = "Invalid State"
    ∧ ((m.build).2.build).1.taskContext.getCurrentState
        ≠ (m.build).1.taskContext.getCurrentState := by
  refine ⟨rfl, rfl, rfl, ?_⟩
  simp only [TaskManager.build, Task.movedFrom, TaskContext.getCurrentState, h]
  cases s <;> simp [TaskState.stateLabel]

/-- Witness for C5: a fresh builder is consumed by its first
`build`; the second `build` returns the emptied task. -/
theorem build_consumes_builder_witness :
    (((TaskManager.construct 1001 "C++ Dev Task" .LOW 0).1.build).1
        = (TaskManager.construct 1001 "C++ Dev Task" .LOW 0).1.task)
    ∧ ((((TaskManager.construct 1001 "C++ Dev Task" .LOW 0).1.build).2.build).1.taskContext.taskObservers
        = [])
    ∧ ((((TaskManager.construct 1001 "C++ Dev Task" .LOW 0).1.build).2.build).1.taskContext.getCurrentState
        = "Invalid State")
    ∧ ((((TaskManager.construct 1001 "C++ Dev Task" .LOW 0).1.build).2.build).1.taskContext.getCurrentState
        ≠ (((TaskManager.construct 1001 "C++ Dev Task" .LOW 0).1.build).1.taskContext.getCurrentState)) :=
  build_consumes_builder (TaskManager.construct 1001 "C++ Dev Task" .LOW 0).1
    .Created rfl

/-- C8: `print` is a pure query — the task is unchanged and no
observer is notified — and its rendered lines contain the id, the
priority label, the title, the description, both dates rendered by
the `"%Y-%m-%d"` formatter, and the current state label. -/
theorem print_renders_fields_and_is_pure (t : Task) :
    ((t.applyOp .print).1 = t)
    ∧ deliveries (t.applyOp .print).2 = []
    ∧ (∃ l ∈ t.printLines, containsStr l (toString t.Id))
    ∧ (∃ l ∈ t.printLines, containsStr l t.getCurrentTaskPriorityInString)
    ∧ (∃ l ∈ t.printLines, containsStr l t.taskTitle)
    ∧ (∃ l ∈ t.printLines, containsStr l t.taskDescription)
    ∧ (∃ l ∈ t.printLines, containsStr l (formatDate t.startDate))
    ∧ (∃ l ∈ t.printLines, containsStr l (formatDate t.endDate))
    ∧ (∃ l ∈ t.printLines, containsStr l t.taskContext.getCurrentState) := by
  refine ⟨rfl, ?_, ?_, ?_, ?_, ?_, ?_, ?_, ?_⟩
  · simp [Task.applyOp, deliveries, List.filterMap_map, Function.comp]
  · exact ⟨"Id: " ++ toString t.Id ++ ", Priority: "
        ++ t.getCurrentTaskPriorityInString,
      by simp [Task.printLines],
      "Id: ", ", Priority: " ++ t.getCurrentTaskPriorityInString,
      by simp [String.append_assoc]⟩
  · exact ⟨"Id: " ++ toString t.Id ++ ", Priority: "
        ++ t.getCurrentTaskPriorityInString,
      by simp [Task.printLines],
      "Id: " ++ toString t.Id ++ ", Priority: ", "",
      by simp [String.append_assoc]⟩
  · exact ⟨"Title: " ++ t.taskTitle, by simp [Task.printLines],
      "Title: ", "", by simp⟩
  · exact ⟨"Description: " ++ t.taskDescription, by simp [Task.printLines],
      "Description: ", "", by simp⟩
  · exact ⟨"Start Date: " ++ formatDate t.startDate ++ ", End Date: "
        ++ formatDate t.endDate,
      by simp [Task.printLines],
      "Start Date: ", ", End Date: " ++ formatDate t.endDate,
      by simp [String.append_assoc]⟩
  · exact ⟨"Start Date: " ++ formatDate t.startDate ++ ", End Date: "
        ++ formatDate t.endDate,
      by simp [Task.printLines],
      "Start Date: " ++ formatDate t.startDate ++ ", End Date: ", "",
      by simp [String.append_assoc]⟩
  · exact ⟨"Task Status: " ++ t.taskContext.getCurrentState,
      by simp [Task.printLines], "Task Status: ", "", by simp⟩

end TMS
